import Mathlib

/-!
Verification of the `init_project.py` initialization script of the
django-starter-template repository.

Strings are modelled as `List Char` (`Str`); the filesystem entries the
script touches are modelled by the finite state `FsState`, and the
possibility of an `OSError` on each primitive filesystem call is modelled
by the fault configuration `FsFault` (each primitive either succeeds
completely or raises, leaving the modelled entry unchanged).  Console
output, the progress bar and the `time.sleep` pauses have no effect on the
properties considered and are not modelled.
-/

set_option autoImplicit false
set_option maxRecDepth 100000

/-- Python strings, modelled as lists of characters. -/
abbrev Str := List Char

/-- Character list of a Lean string literal. -/
def str (s : String) : Str := s.data

/-- A character of the class `[a-z0-9_-]` of the validation pattern. -/
def isNameChar (c : Char) : Bool :=
  (decide ('a' ≤ c) && decide (c ≤ 'z')) ||
  (decide ('0' ≤ c) && decide (c ≤ '9')) ||
  decide (c = '-') || decide (c = '_')

/-- Embeds `re.match(r'^[a-z0-9_-]+$', s)` with Python `re` semantics:
`$` matches at the end of the string or just before a single newline that
ends the string, so the pattern accepts one or more class characters
optionally followed by one trailing newline. -/
def matches_name_pattern (s : Str) : Bool :=
  (!s.isEmpty && s.all isNameChar) ||
  (!s.dropLast.isEmpty && s.dropLast.all isNameChar &&
    decide (s.getLast? = some '\n'))

/-- `validate_project_name` (init_project.py lines 225-229): `None` and the
empty string are falsy and rejected, otherwise the name is matched against
`^[a-z0-9_-]+$`. -/
def validate_project_name : Option Str → Bool
  | none => false
  | some s => if s.isEmpty then false else matches_name_pattern s

/-- Embeds Python `str.lower()` character-wise (ASCII case mapping). -/
def pyLower (s : Str) : Str := s.map Char.toLower

/-- `leadsWith pat s` holds when `pat` occurs at the very start of `s`. -/
def leadsWith : Str → Str → Bool
  | [], _ => true
  | _ :: _, [] => false
  | a :: pat, b :: s => decide (a = b) && leadsWith pat s

/-- `occursIn pat s` holds when `pat` occurs somewhere in `s`. -/
def occursIn (pat : Str) : Str → Bool
  | [] => leadsWith pat []
  | c :: rest => leadsWith pat (c :: rest) || occursIn pat (c :: rest).tail

/-- Fuel-indexed scan of Python `str.replace(old, new)`: at each position,
when the non-empty pattern occurs there the replacement is emitted and the
scan resumes past the occurrence, otherwise the character is kept.  The
fuel only serves structural recursion; with fuel at least the length of
the text the scan completes. -/
def replaceAllF (pat repl : Str) : Nat → Str → Str
  | _, [] => []
  | 0, s => s
  | fuel + 1, c :: rest =>
    if 0 < pat.length ∧ leadsWith pat (c :: rest) = true then
      repl ++ replaceAllF pat repl fuel (List.drop pat.length (c :: rest))
    else
      c :: replaceAllF pat repl fuel rest

/-- Embeds Python `str.replace(old, new)` for a non-empty `old`: every
non-overlapping occurrence, scanned left to right, is replaced. -/
def replaceAll (pat repl s : Str) : Str := replaceAllF pat repl s.length s

/-- Default overview used by `create_readme` when no description is given
(init_project.py line 87). -/
def default_overview : Str :=
  str "A Django project built with the Django Starter Template."

/-- `overview = description if description else '...'` with Python
truthiness: `None` and the empty string both fall back to the default. -/
def overview_of : Option Str → Str
  | some s => if s.isEmpty then default_overview else s
  | none => default_overview

/-- The fixed part of the README template following the interpolated
overview (init_project.py lines 94-180). -/
def readme_tail : Str := str "

## Features

- **Django 5.2+** - Latest Django features and security updates
- **Custom User Model** - Pre-configured `CustomUser` extending `AbstractUser`
- **django-allauth** - Email-based authentication with social account support
- **uv** - Fast, modern Python package manager
- **Just** - Command runner for development tasks
- **Type Safety** - Full mypy strict mode with django-stubs
- **Code Quality** - Ruff for linting/formatting, pre-commit hooks
- **Testing** - pytest with pytest-django and coverage reporting
- **Environment Configuration** - django-environ for 12-factor app compliance

## Quick Start

### Prerequisites

- Python 3.13+
- [uv](https://github.com/astral-sh/uv) - Install with `curl -LsSf https://astral.sh/uv/install.sh | sh`
- [Just](https://github.com/casey/just) - Install with `brew install just` (macOS)

### Installation

1. Set up the environment:
```bash
just install
```

2. Create a `.env` file in the project root:
```bash
SECRET_KEY=your-secret-key-here
DEBUG=True
ALLOWED_HOSTS=localhost,127.0.0.1
TIME_ZONE=UTC
DATABASE_URL=sqlite:///src/db.sqlite3
```

3. Run migrations:
```bash
just dj-migrate
```

4. Create a superuser:
```bash
uv run python src/manage.py createsuperuser
```

5. Run the development server:
```bash
just run
```

## Available Commands

Run `just` to see all available commands:

- `just install` - Set up environment (uv sync + pre-commit install)
- `just run` - Start Django dev server
- `just test` - Run pytest suite
- `just lint` - Run ruff linting and formatting
- `just check` - Run all pre-commit hooks
- `just dj-migrate` - Run migrations
- `just new-app NAME` - Create new Django app

## Project Structure

```
src/
├── config/          # Django settings and configuration
├── users/           # Custom user model
├── templates/       # Project-wide templates
└── static/          # Project-wide static files
```

## Development

This project follows strict code quality standards:

- **Python Style**: Single quotes, 120 char line length (enforced by ruff)
- **Type Checking**: Strict mypy with django-stubs
- **Pre-commit Hooks**: Automatic code quality checks on commit

## License

[Add your license here]
"

/-- The README text produced by `create_readme` (init_project.py lines
90-180): an f-string interpolating the project name and the overview. -/
def readme_content (pn : Str) (d : Option Str) : Str :=
  str "# " ++ pn ++ str "\n\n## Overview\n\n" ++ overview_of d ++ readme_tail

/-- The exact name line replaced in pyproject.toml (line 208). -/
def name_literal : Str := str "name = \"django-starter-template\""

/-- Its replacement, interpolating the project name (line 208). -/
def name_replacement (pn : Str) : Str := str "name = \"" ++ pn ++ str "\""

/-- The exact description line replaced in pyproject.toml (line 213). -/
def old_description_literal : Str :=
  str "description = \"A simple way to start your Django project with a solid foundation.\""

/-- `new_description = description if description else f'...'` (line 211)
with Python truthiness: `None` and the empty string fall back to the
interpolated default. -/
def new_description (pn : Str) : Option Str → Str
  | some s => if s.isEmpty then pn ++ str " - A Django project" else s
  | none => pn ++ str " - A Django project"

/-- The replacement for the description line (lines 212-215). -/
def description_replacement (pn : Str) (d : Option Str) : Str :=
  str "description = \"" ++ new_description pn d ++ str "\""

/-- The pure manifest rewrite at the core of `update_pyproject_toml`
(lines 207-215): two global literal replacements on the file text. -/
def rewritten_pyproject (content pn : Str) (d : Option Str) : Str :=
  replaceAll old_description_literal (description_replacement pn d)
    (replaceAll name_literal (name_replacement pn) content)

/-- The filesystem entries touched by the script, relative to its base
directory: the `.git` and `.venv` directories, the `src/db.sqlite3` file,
and the contents (`none` = absent) of `README.md` and `pyproject.toml`. -/
structure FsState where
  gitExists : Bool
  venvExists : Bool
  dbExists : Bool
  readme : Option Str
  pyproject : Option Str
deriving DecidableEq

/-- Fault configuration: whether each primitive filesystem call raises
`OSError`.  A raising primitive is modelled as leaving its entry
unchanged. -/
structure FsFault where
  rmGitFails : Bool
  rmVenvFails : Bool
  unlinkDbFails : Bool
  writeReadmeFails : Bool
  readPyprojectFails : Bool
  writePyprojectFails : Bool
deriving DecidableEq

/-- The fault configuration in which every primitive succeeds. -/
def noFault : FsFault := ⟨false, false, false, false, false, false⟩

/-- `remove_git_repo` (lines 37-49): remove `.git` if it exists; on
`OSError`, `sys.exit(1)`.  The second component is `some code` when the
step exits the process. -/
def remove_git_repo (o : FsFault) (fs : FsState) : FsState × Option Nat :=
  if fs.gitExists then
    if o.rmGitFails then (fs, some 1)
    else ({ fs with gitExists := false }, none)
  else (fs, none)

/-- `remove_venv` (lines 52-64): remove `.venv` if it exists; on
`OSError`, `sys.exit(1)`. -/
def remove_venv (o : FsFault) (fs : FsState) : FsState × Option Nat :=
  if fs.venvExists then
    if o.rmVenvFails then (fs, some 1)
    else ({ fs with venvExists := false }, none)
  else (fs, none)

/-- `remove_database` (lines 67-79): unlink `src/db.sqlite3` if it exists;
on `OSError`, `sys.exit(1)`. -/
def remove_database (o : FsFault) (fs : FsState) : FsState × Option Nat :=
  if fs.dbExists then
    if o.unlinkDbFails then (fs, some 1)
    else ({ fs with dbExists := false }, none)
  else (fs, none)

/-- `create_readme` (lines 82-188): write the templated README; on
`OSError`, `sys.exit(1)`. -/
def create_readme (pn : Str) (d : Option Str) (o : FsFault) (fs : FsState) :
    FsState × Option Nat :=
  if o.writeReadmeFails then (fs, some 1)
  else ({ fs with readme := some (readme_content pn d) }, none)

/-- `update_pyproject_toml` (lines 191-222): exit 1 when the manifest is
missing, read it, rewrite the two literals, write it back; `sys.exit(1)`
on a read or write `OSError`. -/
def update_pyproject_toml (pn : Str) (d : Option Str) (o : FsFault)
    (fs : FsState) : FsState × Option Nat :=
  match fs.pyproject with
  | none => (fs, some 1)
  | some content =>
    if o.readPyprojectFails then (fs, some 1)
    else if o.writePyprojectFails then (fs, some 1)
    else ({ fs with pyproject := some (rewritten_pyproject content pn d) }, none)

/-- Sequencing of script steps: once a step has exited the process, no
further step runs and the state is final. -/
def andThen (r : FsState × Option Nat) (step : FsState → FsState × Option Nat) :
    FsState × Option Nat :=
  match r with
  | (fs, none) => step fs
  | (fs, some c) => (fs, some c)

/-- The body of `main` on the non-interactive branch (lines 259-348),
taking the parsed argument values as inputs: validate the lowercased name
(exit 1 when invalid), then run the cleanup and rewrite steps in order,
removing the git repository only when `--skip-git` is absent.  The
interactive branch reads from the terminal and is not modelled. -/
def main_run (rawName : Str) (d : Option Str) (skipGit : Bool) (o : FsFault)
    (fs : FsState) : FsState × Option Nat :=
  if validate_project_name (some (pyLower rawName)) then
    let pn := pyLower rawName
    let r1 := if skipGit then (fs, (none : Option Nat)) else remove_git_repo o fs
    let r2 := andThen r1 (remove_venv o)
    let r3 := andThen r2 (remove_database o)
    let r4 := andThen r3 (create_readme pn d o)
    andThen r4 (update_pyproject_toml pn d o)
  else (fs, some 1)

/-- Whether a string is a valid argparse option string: it must start
with the prefix character `-`. -/
def option_string_valid : Str → Bool
  | [] => false
  | c :: _ => decide (c = '-')

/-- Embeds the option-string check of `argparse.add_argument` from the
Python standard library: a single argument string not starting with the
prefix character `-` registers a positional argument; otherwise every
argument string must start with `-`, and the first one that does not makes
`add_argument` raise `ValueError` naming it. -/
def add_argument_strings (strs : List Str) : Except Str Unit :=
  if strs.length ≤ 1 && !option_string_valid (strs.headD []) then Except.ok ()
  else
    match strs.find? (fun s => !option_string_valid s) with
    | some bad => Except.error bad
    | none => Except.ok ()

/-- The three `add_argument` registrations performed by `cli`
(lines 238-249), in order; `Except.error s` is the `ValueError` raised for
the invalid option string `s`. -/
def cli_build : Except Str Unit := do
  add_argument_strings [str "--name", str "project_name"]
  add_argument_strings [str "-d", str "--description"]
  add_argument_strings [str "--skip-git"]

/-- Spec-side reading of the character class: a lowercase letter, a digit,
a hyphen or an underscore. -/
def NameCharP (c : Char) : Prop :=
  ('a' ≤ c ∧ c ≤ 'z') ∨ ('0' ≤ c ∧ c ≤ '9') ∨ c = '-' ∨ c = '_'

instance (c : Char) : Decidable (NameCharP c) := by
  unfold NameCharP
  infer_instance

theorem isNameChar_iff {c : Char} : isNameChar c = true ↔ NameCharP c := by
  simp only [isNameChar, NameCharP, Bool.or_eq_true, Bool.and_eq_true,
    decide_eq_true_eq]
  tauto

theorem all_isNameChar_iff (s : Str) :
    s.all isNameChar = true ↔ ∀ c ∈ s, NameCharP c := by
  simp only [List.all_eq_true, isNameChar_iff]

theorem matches_name_pattern_iff (s : Str) (hs : s ≠ []) :
    matches_name_pattern s = true ↔
      (∀ c ∈ s, NameCharP c) ∨
        ∃ t, s = t ++ ['\n'] ∧ t ≠ [] ∧ ∀ c ∈ t, NameCharP c := by
  simp only [matches_name_pattern, Bool.or_eq_true, Bool.and_eq_true,
    Bool.not_eq_true', List.isEmpty_eq_false, decide_eq_true_eq,
    all_isNameChar_iff]
  constructor
  · rintro (⟨_, hall⟩ | ⟨⟨hd, hall⟩, hlast⟩)
    · exact Or.inl hall
    · exact Or.inr ⟨s.dropLast, (List.dropLast_append_getLast? _ hlast).symm,
        hd, hall⟩
  · rintro (hall | ⟨t, rfl, ht, hall⟩)
    · exact Or.inl ⟨hs, hall⟩
    · refine Or.inr ⟨⟨?_, ?_⟩, ?_⟩
      · simpa using ht
      · simpa using hall
      · simp

/-- C1 (counterexample): the string `abc` followed by a newline is accepted
by `validate_project_name`, yet it does not consist only of lowercase
letters, digits, hyphens and underscores, refuting the claimed
`accepted iff only class characters` equivalence. -/
theorem validate_project_name_newline_counterexample :
    validate_project_name (some (str "abc\n")) = true ∧
      ¬ ∀ c ∈ str "abc\n", NameCharP c := by
  constructor
  · decide
  · decide

/-- C1 (amended): `validate_project_name` accepts exactly the non-empty
strings of lowercase letters, digits, hyphens and underscores, optionally
followed by one trailing newline (the Python `$` anchor also matches just
before a final newline); everything else, including the empty string, is
rejected. -/
theorem validate_project_name_characterization (s : Str) :
    validate_project_name (some s) = true ↔
      ((s ≠ [] ∧ ∀ c ∈ s, NameCharP c) ∨
        ∃ t, s = t ++ ['\n'] ∧ t ≠ [] ∧ ∀ c ∈ t, NameCharP c) := by
  cases s with
  | nil =>
    constructor
    · intro h; cases h
    · rintro (⟨h, -⟩ | ⟨t, ht, -, -⟩)
      · exact absurd rfl h
      · simp at ht
  | cons a rest =>
    have h := matches_name_pattern_iff (a :: rest) (by simp)
    simpa [validate_project_name] using h

/-- C2: registering the project-name argument passes the plain string
`project_name` alongside the option string `--name` to `add_argument`, so
building the parser raises `ValueError` for the invalid option string
`project_name`; `cli` never returns a namespace. -/
theorem cli_build_raises_for_project_name :
    cli_build = Except.error (str "project_name") := rfl

/-- C3: when the supplied (non-empty) project name fails validation after
lowercasing, `main` exits with code 1 and the modelled filesystem is
completely unchanged: nothing is removed, deleted or written. -/
theorem main_invalid_name_exits_before_mutation
    (raw : Str) (d : Option Str) (skipGit : Bool) (o : FsFault) (fs : FsState)
    (_hraw : raw ≠ [])
    (hval : validate_project_name (some (pyLower raw)) = false) :
    main_run raw d skipGit o fs = (fs, some 1) := by
  simp [main_run, hval]

/-- C3 witness: a concrete invalid name exits 1 and leaves a concrete
fully-populated filesystem unchanged. -/
theorem main_invalid_name_witness :
    (str "Bad Name") ≠ [] ∧
      validate_project_name (some (pyLower (str "Bad Name"))) = false ∧
      main_run (str "Bad Name") none false noFault
          ⟨true, true, true, some [], some []⟩ =
        (⟨true, true, true, some [], some []⟩, some 1) :=
  ⟨by decide, by decide,
    main_invalid_name_exits_before_mutation _ _ _ _ _ (by decide) (by decide)⟩

/-- C4: each of the three cleanup steps is a no-op returning no exit code
when its target is absent, for every fault configuration, so re-running
cleanup on a clean directory neither changes the filesystem nor errors. -/
theorem cleanup_steps_noop_when_absent :
    (∀ (o : FsFault) (fs : FsState), fs.gitExists = false →
        remove_git_repo o fs = (fs, none)) ∧
      (∀ (o : FsFault) (fs : FsState), fs.venvExists = false →
        remove_venv o fs = (fs, none)) ∧
      (∀ (o : FsFault) (fs : FsState), fs.dbExists = false →
        remove_database o fs = (fs, none)) := by
  refine ⟨?_, ?_, ?_⟩ <;> intro o fs h <;>
    simp [remove_git_repo, remove_venv, remove_database, h]

/-- C4 witness: on a concrete clean directory all three cleanup steps are
no-ops even when every primitive would fail. -/
theorem cleanup_steps_noop_witness :
    remove_git_repo ⟨true, true, true, true, true, true⟩
        ⟨false, false, false, none, none⟩ =
      (⟨false, false, false, none, none⟩, none) ∧
      remove_venv ⟨true, true, true, true, true, true⟩
        ⟨false, false, false, none, none⟩ =
      (⟨false, false, false, none, none⟩, none) ∧
      remove_database ⟨true, true, true, true, true, true⟩
        ⟨false, false, false, none, none⟩ =
      (⟨false, false, false, none, none⟩, none) :=
  ⟨cleanup_steps_noop_when_absent.1 _ _ rfl,
    cleanup_steps_noop_when_absent.2.1 _ _ rfl,
    cleanup_steps_noop_when_absent.2.2 _ _ rfl⟩

/-- C5: the manifest rewrite is a pure, deterministic function of the
original text, the project name and the description: two runs over equal
manifest text, in arbitrary and possibly different surrounding filesystem
states, write back the same rewritten text. -/
theorem update_pyproject_toml_deterministic
    (pn : Str) (d : Option Str) (c : Str) (o₁ o₂ : FsFault)
    (fs₁ fs₂ : FsState)
    (h₁ : fs₁.pyproject = some c) (h₂ : fs₂.pyproject = some c)
    (hr₁ : o₁.readPyprojectFails = false)
    (hw₁ : o₁.writePyprojectFails = false)
    (hr₂ : o₂.readPyprojectFails = false)
    (hw₂ : o₂.writePyprojectFails = false) :
    (update_pyproject_toml pn d o₁ fs₁).1.pyproject =
        some (rewritten_pyproject c pn d) ∧
      (update_pyproject_toml pn d o₁ fs₁).1.pyproject =
        (update_pyproject_toml pn d o₂ fs₂).1.pyproject := by
  simp [update_pyproject_toml, h₁, h₂, hr₁, hw₁, hr₂, hw₂]

/-- C5 witness: two runs over the same concrete manifest text in different
filesystem states produce the same rewritten text. -/
theorem update_pyproject_toml_deterministic_witness :
    (⟨true, false, true, none, some old_description_literal⟩ :
        FsState).pyproject = some old_description_literal ∧
      (update_pyproject_toml (str "app") none noFault
          ⟨true, false, true, none, some old_description_literal⟩).1.pyproject =
        some (rewritten_pyproject old_description_literal (str "app") none) ∧
      (update_pyproject_toml (str "app") none noFault
          ⟨true, false, true, none, some old_description_literal⟩).1.pyproject =
        (update_pyproject_toml (str "app") none
            ⟨true, true, true, true, false, false⟩
            ⟨false, true, false, some [], some old_description_literal⟩).1.pyproject :=
  ⟨rfl,
    (update_pyproject_toml_deterministic (str "app") none
        old_description_literal noFault ⟨true, true, true, true, false, false⟩
        ⟨true, false, true, none, some old_description_literal⟩
        ⟨false, true, false, some [], some old_description_literal⟩
        rfl rfl rfl rfl rfl rfl).1,
    (update_pyproject_toml_deterministic (str "app") none
        old_description_literal noFault ⟨true, true, true, true, false, false⟩
        ⟨true, false, true, none, some old_description_literal⟩
        ⟨false, true, false, some [], some old_description_literal⟩
        rfl rfl rfl rfl rfl rfl).2⟩


/-- C6: with no description supplied, the documented defaults apply: the
README overview slot holds exactly the default sentence, and the manifest
description replacement interpolates the project name into
`name - A Django project`. -/
theorem defaults_without_description (pn : Str) :
    overview_of none =
        str "A Django project built with the Django Starter Template." ∧
      readme_content pn none =
        str "# " ++ pn ++ str "\n\n## Overview\n\n" ++
          str "A Django project built with the Django Starter Template." ++
          readme_tail ∧
      new_description pn none = pn ++ str " - A Django project" ∧
      description_replacement pn none =
        str "description = \"" ++ (pn ++ str " - A Django project") ++
          str "\"" :=
  ⟨rfl, rfl, rfl, rfl⟩

theorem replaceAllF_of_not_occurs (pat repl : Str) :
    ∀ (fuel : Nat) (s : Str), occursIn pat s = false →
      replaceAllF pat repl fuel s = s := by
  intro fuel
  induction fuel with
  | zero => intro s _; cases s <;> rfl
  | succ n ih =>
    intro s hs
    cases s with
    | nil => rfl
    | cons c rest =>
      have hsplit : leadsWith pat (c :: rest) = false ∧
          occursIn pat rest = false := by
        simpa [occursIn] using hs
      show replaceAllF pat repl (n + 1) (c :: rest) = c :: rest
      rw [replaceAllF, if_neg, ih rest hsplit.2]
      rintro ⟨-, hlead⟩
      rw [hsplit.1] at hlead
      cases hlead

theorem replaceAll_of_not_occurs (pat repl s : Str)
    (h : occursIn pat s = false) : replaceAll pat repl s = s :=
  replaceAllF_of_not_occurs pat repl s.length s h

/-- C10: the manifest rewrite replaces every occurrence of the two exact
literals anywhere in the text (shown on a text holding the name literal
twice around the description literal) and changes nothing else: any text
containing neither literal is written back verbatim. -/
theorem pyproject_rewrite_global_and_frame :
    (∀ (c pn : Str) (d : Option Str),
        occursIn name_literal c = false →
        occursIn old_description_literal c = false →
        rewritten_pyproject c pn d = c) ∧
      rewritten_pyproject
          (name_literal ++ str "\n" ++ old_description_literal ++ str "\n" ++
            name_literal)
          (str "myproj") (some (str "Cool app")) =
        name_replacement (str "myproj") ++ str "\n" ++
          str "description = \"Cool app\"" ++ str "\n" ++
          name_replacement (str "myproj") := by
  constructor
  · intro c pn d h₁ h₂
    unfold rewritten_pyproject
    rw [replaceAll_of_not_occurs _ _ _ h₁, replaceAll_of_not_occurs _ _ _ h₂]
  · decide

/-- C8: with the skip-git flag set, the `.git` entry is left exactly as it
was for every fault configuration of the git removal primitive (so
`remove_git_repo` is never invoked), while the remaining four steps still
run: the venv and database are removed, the README is written and the
manifest is rewritten. -/
theorem skip_git_leaves_git_untouched
    (raw : Str) (d : Option Str) (o : FsFault) (fs : FsState) (c : Str)
    (hval : validate_project_name (some (pyLower raw)) = true)
    (hv : o.rmVenvFails = false) (hd : o.unlinkDbFails = false)
    (hw : o.writeReadmeFails = false) (hr : o.readPyprojectFails = false)
    (hwp : o.writePyprojectFails = false) (hp : fs.pyproject = some c) :
    main_run raw d true o fs =
      ({ fs with
          venvExists := false
          dbExists := false
          readme := some (readme_content (pyLower raw) d)
          pyproject := some (rewritten_pyproject c (pyLower raw) d) }, none) := by
  obtain ⟨og, ov, od, ow, orp, owp⟩ := o
  obtain ⟨fg, fv, fd, fr, fp⟩ := fs
  dsimp only at hv hd hw hr hwp hp
  subst hv hd hw hr hwp hp
  cases fv <;> cases fd <;>
    simp [main_run, hval, andThen, remove_venv, remove_database,
      create_readme, update_pyproject_toml]

/-- C8 witness: a concrete run with the skip-git flag, a present `.git`
directory and a git removal primitive that would fail still succeeds and
keeps `.git`, while the other four steps take effect. -/
theorem skip_git_witness :
    validate_project_name (some (pyLower (str "app"))) = true ∧
      main_run (str "app") none true ⟨true, false, false, false, false, false⟩
          ⟨true, true, true, none, some []⟩ =
        (⟨true, false, false, some (readme_content (pyLower (str "app")) none),
          some (rewritten_pyproject [] (pyLower (str "app")) none)⟩, none) :=
  ⟨by decide,
    skip_git_leaves_git_untouched (str "app") none
      ⟨true, false, false, false, false, false⟩
      ⟨true, true, true, none, some []⟩ [] (by decide) rfl rfl rfl rfl rfl rfl⟩

/-- C9: `main` lowercases the supplied name before validating and using
it: every non-empty name whose lowercased form passes validation is
accepted, and both the README and the rewritten manifest are produced from
the lowercased name. -/
theorem lowercased_name_accepted_and_used
    (raw : Str) (d : Option Str) (o : FsFault) (fs : FsState) (c : Str)
    (_hraw : raw ≠ [])
    (hval : validate_project_name (some (pyLower raw)) = true)
    (hg : o.rmGitFails = false) (hv : o.rmVenvFails = false)
    (hd : o.unlinkDbFails = false) (hw : o.writeReadmeFails = false)
    (hr : o.readPyprojectFails = false) (hwp : o.writePyprojectFails = false)
    (hp : fs.pyproject = some c) :
    main_run raw d false o fs =
      ({ fs with
          gitExists := false
          venvExists := false
          dbExists := false
          readme := some (readme_content (pyLower raw) d)
          pyproject := some (rewritten_pyproject c (pyLower raw) d) }, none) := by
  obtain ⟨og, ov, od, ow, orp, owp⟩ := o
  obtain ⟨fg, fv, fd, fr, fp⟩ := fs
  dsimp only at hg hv hd hw hr hwp hp
  subst hg hv hd hw hr hwp hp
  cases fg <;> cases fv <;> cases fd <;>
    simp [main_run, hval, andThen, remove_git_repo, remove_venv,
      remove_database, create_readme, update_pyproject_toml]

/-- C9 witness: the mixed-case name `My-Project` fails the pattern as
written but its lowercased form passes, the run is accepted, and all
outputs are produced from the lowercased name. -/
theorem lowercased_name_witness :
    validate_project_name (some (str "My-Project")) = false ∧
      validate_project_name (some (pyLower (str "My-Project"))) = true ∧
      main_run (str "My-Project") none false noFault
          ⟨true, true, true, some [], some name_literal⟩ =
        (⟨false, false, false,
          some (readme_content (pyLower (str "My-Project")) none),
          some (rewritten_pyproject name_literal
            (pyLower (str "My-Project")) none)⟩, none) :=
  ⟨by decide, by decide,
    lowercased_name_accepted_and_used (str "My-Project") none noFault
      ⟨true, true, true, some [], some name_literal⟩ name_literal
      (by decide) (by decide) rfl rfl rfl rfl rfl rfl rfl⟩

/-- C7: whichever step first hits a filesystem error (an `OSError` on a
removal, on writing the README, on reading or writing the manifest, or a
missing `pyproject.toml`), the run ends at once with exit code 1: the
failing step and all later steps leave their entries unchanged, while the
effects of the already-completed earlier steps are kept (no rollback). -/
theorem failing_step_exits_one_no_rollback :
    (∀ (raw : Str) (d : Option Str) (o : FsFault) (fs : FsState),
        validate_project_name (some (pyLower raw)) = true →
        fs.gitExists = true → o.rmGitFails = true →
        main_run raw d false o fs = (fs, some 1)) ∧
      (∀ (raw : Str) (d : Option Str) (o : FsFault) (fs : FsState),
        validate_project_name (some (pyLower raw)) = true →
        o.rmGitFails = false → o.rmVenvFails = false →
        o.unlinkDbFails = false → o.writeReadmeFails = true →
        main_run raw d false o fs =
          ({ fs with
              gitExists := false
              venvExists := false
              dbExists := false }, some 1)) ∧
      (∀ (raw : Str) (d : Option Str) (o : FsFault) (fs : FsState),
        validate_project_name (some (pyLower raw)) = true →
        o.rmGitFails = false → o.rmVenvFails = false →
        o.unlinkDbFails = false → o.writeReadmeFails = false →
        o.readPyprojectFails = true →
        main_run raw d false o fs =
          ({ fs with
              gitExists := false
              venvExists := false
              dbExists := false
              readme := some (readme_content (pyLower raw) d) }, some 1)) ∧
      (∀ (raw : Str) (d : Option Str) (o : FsFault) (fs : FsState),
        validate_project_name (some (pyLower raw)) = true →
        o.rmGitFails = false → o.rmVenvFails = false →
        o.unlinkDbFails = false → o.writeReadmeFails = false →
        fs.pyproject = none →
        main_run raw d false o fs =
          ({ fs with
              gitExists := false
              venvExists := false
              dbExists := false
              readme := some (readme_content (pyLower raw) d) }, some 1)) ∧
      (∀ (raw : Str) (d : Option Str) (o : FsFault) (fs : FsState) (c : Str),
        validate_project_name (some (pyLower raw)) = true →
        o.rmGitFails = false → o.rmVenvFails = false →
        o.unlinkDbFails = false → o.writeReadmeFails = false →
        o.readPyprojectFails = false → o.writePyprojectFails = true →
        fs.pyproject = some c →
        main_run raw d false o fs =
          ({ fs with
              gitExists := false
              venvExists := false
              dbExists := false
              readme := some (readme_content (pyLower raw) d) }, some 1)) := by
  refine ⟨?_, ?_, ?_, ?_, ?_⟩
  · intro raw d o fs hval hfg hog
    obtain ⟨og, ov, od, ow, orp, owp⟩ := o
    obtain ⟨fg, fv, fd, fr, fp⟩ := fs
    dsimp only at hfg hog
    subst hfg hog
    simp [main_run, hval, andThen, remove_git_repo]
  · intro raw d o fs hval hog hov hod how
    obtain ⟨og, ov, od, ow, orp, owp⟩ := o
    obtain ⟨fg, fv, fd, fr, fp⟩ := fs
    dsimp only at hog hov hod how
    subst hog hov hod how
    cases fg <;> cases fv <;> cases fd <;>
      simp [main_run, hval, andThen, remove_git_repo, remove_venv,
        remove_database, create_readme]
  · intro raw d o fs hval hog hov hod how horp
    obtain ⟨og, ov, od, ow, orp, owp⟩ := o
    obtain ⟨fg, fv, fd, fr, fp⟩ := fs
    dsimp only at hog hov hod how horp
    subst hog hov hod how horp
    cases fg <;> cases fv <;> cases fd <;> cases fp <;>
      simp [main_run, hval, andThen, remove_git_repo, remove_venv,
        remove_database, create_readme, update_pyproject_toml]
  · intro raw d o fs hval hog hov hod how hfp
    obtain ⟨og, ov, od, ow, orp, owp⟩ := o
    obtain ⟨fg, fv, fd, fr, fp⟩ := fs
    dsimp only at hog hov hod how hfp
    subst hog hov hod how hfp
    cases fg <;> cases fv <;> cases fd <;>
      simp [main_run, hval, andThen, remove_git_repo, remove_venv,
        remove_database, create_readme, update_pyproject_toml]
  · intro raw d o fs c hval hog hov hod how horp howp hfp
    obtain ⟨og, ov, od, ow, orp, owp⟩ := o
    obtain ⟨fg, fv, fd, fr, fp⟩ := fs
    dsimp only at hog hov hod how horp howp hfp
    subst hog hov hod how horp howp hfp
    cases fg <;> cases fv <;> cases fd <;>
      simp [main_run, hval, andThen, remove_git_repo, remove_venv,
        remove_database, create_readme, update_pyproject_toml]

/-- C7 witness: concrete runs hitting each class of failure (removal
error, README write error, manifest read error, missing manifest, manifest
write error) all exit 1 immediately, keeping earlier effects and touching
nothing later. -/
theorem failing_step_witness :
    validate_project_name (some (pyLower (str "app"))) = true ∧
      main_run (str "app") none false ⟨true, false, false, false, false, false⟩
          ⟨true, true, true, some [], some []⟩ =
        (⟨true, true, true, some [], some []⟩, some 1) ∧
      main_run (str "app") none false ⟨false, false, false, true, false, false⟩
          ⟨true, true, true, some [], some []⟩ =
        (⟨false, false, false, some [], some []⟩, some 1) ∧
      main_run (str "app") none false ⟨false, false, false, false, true, false⟩
          ⟨true, true, true, some [], some []⟩ =
        (⟨false, false, false,
          some (readme_content (pyLower (str "app")) none), some []⟩, some 1) ∧
      main_run (str "app") none false noFault
          ⟨true, true, true, some [], none⟩ =
        (⟨false, false, false,
          some (readme_content (pyLower (str "app")) none), none⟩, some 1) ∧
      main_run (str "app") none false ⟨false, false, false, false, false, true⟩
          ⟨true, true, true, some [], some []⟩ =
        (⟨false, false, false,
          some (readme_content (pyLower (str "app")) none), some []⟩, some 1) :=
  ⟨by decide,
    failing_step_exits_one_no_rollback.1 (str "app") none
      ⟨true, false, false, false, false, false⟩
      ⟨true, true, true, some [], some []⟩ (by decide) rfl rfl,
    failing_step_exits_one_no_rollback.2.1 (str "app") none
      ⟨false, false, false, true, false, false⟩
      ⟨true, true, true, some [], some []⟩ (by decide) rfl rfl rfl rfl,
    failing_step_exits_one_no_rollback.2.2.1 (str "app") none
      ⟨false, false, false, false, true, false⟩
      ⟨true, true, true, some [], some []⟩ (by decide) rfl rfl rfl rfl rfl,
    failing_step_exits_one_no_rollback.2.2.2.1 (str "app") none noFault
      ⟨true, true, true, some [], none⟩ (by decide) rfl rfl rfl rfl rfl,
    failing_step_exits_one_no_rollback.2.2.2.2 (str "app") none
      ⟨false, false, false, false, false, true⟩
      ⟨true, true, true, some [], some []⟩ []
      (by decide) rfl rfl rfl rfl rfl rfl rfl⟩

/-- C10 witness: a concrete manifest text containing neither literal is
written back unchanged. -/
theorem pyproject_rewrite_frame_witness :
    occursIn name_literal (str "x = 1\n") = false ∧
      occursIn old_description_literal (str "x = 1\n") = false ∧
      rewritten_pyproject (str "x = 1\n") (str "p") none = str "x = 1\n" :=
  ⟨by decide, by decide,
    pyproject_rewrite_global_and_frame.1 _ _ _ (by decide) (by decide)⟩
